import Mathlib

/-!
Verification of the TonyOS dashboard backend core (src/index.js, the
"industry-grade single-file version"): the task scoring function
`computeTonyScore` (lines 506-562) and the default listing order of
`GET /tasks` (lines 604-621).

Modelling conventions for the shallow embedding:
* JS numbers occurring in the score fields are modelled as `Int` (the code
  only ever stores and compares integers there); timestamps are milliseconds
  since the epoch as `Int` (JS `Date.getTime()`).
* The JS `typeof x === "number"` presence test on the optional score columns
  is modelled by the `JsField` sum type: a column holds either a number, a
  string, `null`, or `undefined`.
* A task's `due_date` as seen by `computeTonyScore` is either falsy
  (`null` / `undefined` / `""`), a value parsing to a valid instant, or a
  truthy value that does not parse (`new Date(x).getTime()` is `NaN`).
* The float division `diffHours = diffMs / 3600000` followed by comparisons
  against 24, 72 and 168 hours is replaced by the equivalent integer
  comparisons of `diffMs` against the same thresholds scaled to
  milliseconds (86400000, 259200000, 604800000); for integral millisecond
  differences the two are equivalent.
-/

namespace TonyOS

/-- A JS value sitting in one of the optional score-input columns
(`leverage_score`, `urgency_score`, `risk_score`, `friction_score`).
`computeTonyScore` tests these with `typeof x === "number"`. -/
inductive JsField where
  | num (n : Int)
  | str (s : String)
  | nullv
  | undef
deriving DecidableEq, Repr

/-- `typeof x === "number"` on a score column. -/
def JsField.isNum : JsField → Bool
  | JsField.num _ => true
  | _ => false

/-- The `due_date` input of `computeTonyScore`: absent (falsy), a value that
parses to the instant `t` (milliseconds since epoch), or a truthy value that
does not parse to a valid instant. In the database the column is
`TIMESTAMPTZ`, so rows read back always have `absent` or `valid`. -/
inductive DueVal where
  | absent
  | valid (t : Int)
  | invalid
deriving DecidableEq, Repr

/-- A task record (the `tasks` table of the second variant, lines 436-451 of
src/index.js, restricted to the columns the scoring and ordering logic
reads). `priority` is `NOT NULL DEFAULT 3` in the schema but the scoring
code still guards with `task.priority ?? 3`, so it is modelled as optional.
`created_at` is a millisecond timestamp. -/
structure Task where
  title : String := ""
  description : Option String := none
  area : Option String := none
  status : String := "open"
  bucket : String := "later"
  priority : Option Int := none
  leverage_score : JsField := JsField.undef
  urgency_score : JsField := JsField.undef
  risk_score : JsField := JsField.undef
  friction_score : JsField := JsField.undef
  due_date : DueVal := DueVal.absent
  created_at : Int := 0
deriving DecidableEq, Repr

/-- The object returned by `computeTonyScore` (lines 555-561). -/
structure Scores where
  leverage_score : Int
  urgency_score : Int
  risk_score : Int
  friction_score : Int
  tony_score : Int
deriving DecidableEq, Repr

/-- `clampPriority` (src/index.js lines 468-473). The JS `Number.isNaN`
branch cannot fire for an integer input and is dropped. -/
def clampPriority (p : Int) : Int :=
  if p < 1 then 1 else if p > 5 then 5 else p

/-- ASCII lower-casing, modelling `String.prototype.toLowerCase` on the
ASCII text the friction keywords are drawn from. -/
def lowerStr (s : String) : String := String.mk (s.data.map Char.toLower)

/-- `pat` occurs as a contiguous run inside the character list. -/
def hasSub (pat : List Char) : List Char → Bool
  | [] => pat.isEmpty
  | c :: rest => pat.isPrefixOf (c :: rest) || hasSub pat rest

/-- `hay.includes(pat)` on JS strings. -/
def strContains (hay pat : String) : Bool := hasSub pat.data hay.data

/-- The `leverage` binding of `computeTonyScore` (lines 509-516): an explicit
numeric `leverage_score` passes through, otherwise `6 - clampPriority
(priority ?? 3)`. -/
def leverageOf (task : Task) : Int :=
  match task.leverage_score with
  | JsField.num n => n
  | _ => 6 - clampPriority ((task.priority).getD 3)

/-- The `urgency` binding of `computeTonyScore` (lines 518-531): with a valid
due date, bin `due - now` (milliseconds) at 0 / 24h / 72h / 7d; with a truthy
but unparseable due date the initial value 1 survives; with no due date fall
back to the bucket. -/
def urgencyOf (now : Int) (task : Task) : Int :=
  match task.due_date with
  | DueVal.valid t =>
      if t - now < 0 then 5
      else if t - now ≤ 86400000 then 4
      else if t - now ≤ 259200000 then 3
      else if t - now ≤ 604800000 then 2
      else 1
  | DueVal.invalid => 1
  | DueVal.absent =>
      if task.bucket = "today" then 3
      else if task.bucket = "this_week" then 2
      else 1

/-- The `risk` binding of `computeTonyScore` (lines 533-540): explicit
numeric `risk_score` passes through, otherwise derived from urgency. -/
def riskOf (now : Int) (task : Task) : Int :=
  match task.risk_score with
  | JsField.num n => n
  | _ =>
      if urgencyOf now task ≥ 4 then 4
      else if urgencyOf now task = 3 then 3
      else 2

/-- The `friction` binding of `computeTonyScore` (lines 542-551): explicit
numeric `friction_score` passes through, otherwise keyword inference on the
lower-cased description (empty or missing description gives 2). -/
def frictionOf (task : Task) : Int :=
  match task.friction_score with
  | JsField.num n => n
  | _ =>
      let desc := lowerStr ((task.description).getD "")
      if desc = "" then 2
      else if strContains desc "tax" || strContains desc "accounting" ||
          strContains desc "legal" then 3
      else if strContains desc "call" || strContains desc "email" then 1
      else 2

/-- `computeTonyScore` (src/index.js lines 506-562). The four `let` bindings
of the JS function are hoisted into `leverageOf`, `urgencyOf`, `riskOf` and
`frictionOf`; `now` is the ambient clock reading taken at entry. -/
def computeTonyScore (now : Int) (task : Task) : Scores :=
  { leverage_score := leverageOf task
    urgency_score := urgencyOf now task
    risk_score := riskOf now task
    friction_score := frictionOf task
    tony_score :=
      leverageOf task + urgencyOf now task + riskOf now task - frictionOf task }

/-- The boolean `status = 'done'` sort expression of the `GET /tasks` query
(line 610); in Postgres `false` orders before `true`, encoded 0 before 1. -/
def doneKey (t : Task) : Nat := if t.status = "done" then 1 else 0

/-- The millisecond timestamp of `'9999-12-31'::timestamptz` (UTC), the
`COALESCE` sentinel of line 613. -/
def dueSentinel : Int := 253402214400000

/-- The `COALESCE(due_date, '9999-12-31'::timestamptz)` sort key (line 613).
Stored rows never hold an unparseable date, so only `valid` and the `NULL`
sentinel occur. -/
def dueKey (t : Task) : Int :=
  match t.due_date with
  | DueVal.valid x => x
  | _ => dueSentinel

/-- The full `ORDER BY` key of `GET /tasks` (lines 609-614):
`status = 'done'`, then `bucket` as text (character-code order, which is what
the C collation gives and what common collations give on these all-lowercase
ASCII values), then `priority`, then the coalesced due date, then
`created_at`, compared lexicographically. A stored row always carries a
priority (the column is `NOT NULL DEFAULT 3`), so a missing one is read as
the schema default 3. -/
def taskKey (t : Task) : Nat ×ₗ List Char ×ₗ Int ×ₗ Int ×ₗ Int :=
  toLex (doneKey t,
    toLex (t.bucket.data,
      toLex ((t.priority).getD 3,
        toLex (dueKey t, t.created_at))))

/-- The row order requested by the `GET /tasks` query: ascending in
`taskKey`. -/
def taskLe (a b : Task) : Prop := taskKey a ≤ taskKey b

instance : DecidableRel taskLe :=
  fun a b => inferInstanceAs (Decidable (taskKey a ≤ taskKey b))

instance : IsTotal Task taskLe := ⟨fun a b => le_total (taskKey a) (taskKey b)⟩

instance : IsTrans Task taskLe := ⟨fun _ _ _ hab hbc => le_trans hab hbc⟩

/-- The task list served by `GET /tasks` (lines 604-621), as a function of
the stored rows in insertion order: one `ORDER BY`-compliant output (an
insertion sort by the key). Postgres leaves the relative order of rows tied
on the whole key unspecified, so the model's choice of tie order is not a
guarantee of the program: theorems about `listTasks` only assert properties
— being a permutation of the rows, being sorted by the key — that hold of
every `ORDER BY`-compliant output and are invariant under permuting
key-tied rows. `mapTaskRow` preserves the order and the fields the ordering
claims mention, so ordering claims are stated on the rows themselves. -/
def listTasks (l : List Task) : List Task := List.insertionSort taskLe l

/-- Modelled from the spec wording of the ordering claim (spec 4.2, key 2):
the semantic bucket rank `today < this_week < later (< backlog)`. This is
the comparison the claim asserts, to be compared with the `ORDER BY bucket`
text comparison actually issued by the code. -/
def bucketRank (b : String) : Nat :=
  if b = "today" then 0
  else if b = "this_week" then 1
  else if b = "later" then 2
  else 3

/-- The sort key asserted by the ordering claim: like `taskKey` but with the
bucket compared by its semantic rank rather than as text. -/
def specKey (t : Task) : Nat ×ₗ Nat ×ₗ Int ×ₗ Int ×ₗ Int :=
  toLex (doneKey t,
    toLex (bucketRank t.bucket,
      toLex ((t.priority).getD 3,
        toLex (dueKey t, t.created_at))))

/-- The comparator asserted by the ordering claim. -/
def specLe (a b : Task) : Prop := specKey a ≤ specKey b

instance : DecidableRel specLe :=
  fun a b => inferInstanceAs (Decidable (specKey a ≤ specKey b))

/-! ### Helper lemmas -/

theorem leverageOf_of_not_num (t : Task) (h : t.leverage_score.isNum = false) :
    leverageOf t = 6 - clampPriority ((t.priority).getD 3) := by
  unfold leverageOf
  split
  · next n heq => rw [heq] at h; simp [JsField.isNum] at h
  · rfl

theorem riskOf_of_not_num (now : Int) (t : Task) (h : t.risk_score.isNum = false) :
    riskOf now t =
      (if urgencyOf now t ≥ 4 then 4
       else if urgencyOf now t = 3 then 3
       else 2) := by
  unfold riskOf
  split
  · next n heq => rw [heq] at h; simp [JsField.isNum] at h
  · rfl

theorem frictionOf_of_not_num (t : Task) (h : t.friction_score.isNum = false) :
    frictionOf t =
      (if lowerStr ((t.description).getD "") = "" then 2
       else if strContains (lowerStr ((t.description).getD "")) "tax" ||
           strContains (lowerStr ((t.description).getD "")) "accounting" ||
           strContains (lowerStr ((t.description).getD "")) "legal" then 3
       else if strContains (lowerStr ((t.description).getD "")) "call" ||
           strContains (lowerStr ((t.description).getD "")) "email" then 1
       else 2) := by
  unfold frictionOf
  split
  · next n heq => rw [heq] at h; simp [JsField.isNum] at h
  · rfl

/-! ### Claim theorems -/

/-- Claim C6 (confirmed): for every task and clock reading, the composite
`tony_score` returned by `computeTonyScore` equals exactly
leverage + urgency + risk − friction of the four sub-scores it returns, with
no normalization and no further weighting. -/
theorem C6_composite_formula (now : Int) (t : Task) :
    (computeTonyScore now t).tony_score =
      (computeTonyScore now t).leverage_score +
        (computeTonyScore now t).urgency_score +
        (computeTonyScore now t).risk_score -
        (computeTonyScore now t).friction_score := rfl

/-- Claim C2 (counterexample): the pass-through claim fails for
`urgency_score`. A task with `urgency_score` explicitly set to the number 5,
no due date and bucket "later" is scored with `urgency_score` 1: the
explicit field is ignored, because `computeTonyScore` never reads
`task.urgency_score`. -/
theorem C2_counterexample :
    ({ status := "open", bucket := "later",
       urgency_score := JsField.num 5 } : Task).urgency_score =
        JsField.num 5 ∧
    (computeTonyScore 0
        { status := "open", bucket := "later",
          urgency_score := JsField.num 5 }).urgency_score = 1 ∧
    (computeTonyScore 0
        { status := "open", bucket := "later",
          urgency_score := JsField.num 5 }).urgency_score ≠ 5 := by
  decide

/-- Claim C2 (amended): for each of `leverage_score`, `risk_score` and
`friction_score`, an explicitly set (JS-number) value passes through
`computeTonyScore` unchanged into the corresponding output sub-score,
regardless of all other task fields; `urgency_score` is excluded, as it is
always recomputed. -/
theorem C2_explicit_passthrough (now a b c : Int) (t1 t2 t3 : Task)
    (h1 : t1.leverage_score = JsField.num a)
    (h2 : t2.risk_score = JsField.num b)
    (h3 : t3.friction_score = JsField.num c) :
    (computeTonyScore now t1).leverage_score = a ∧
    (computeTonyScore now t2).risk_score = b ∧
    (computeTonyScore now t3).friction_score = c := by
  refine ⟨?_, ?_, ?_⟩
  · simp [computeTonyScore, leverageOf, h1]
  · simp [computeTonyScore, riskOf, h2]
  · simp [computeTonyScore, frictionOf, h3]

/-- Witness for `C2_explicit_passthrough` at concrete inputs (a zero
override included). -/
theorem C2_explicit_passthrough_witness :
    (({ leverage_score := JsField.num 0 } : Task).leverage_score =
        JsField.num 0 ∧
      ({ risk_score := JsField.num 7 } : Task).risk_score = JsField.num 7 ∧
      ({ friction_score := JsField.num 2 } : Task).friction_score =
        JsField.num 2) ∧
    ((computeTonyScore 0 { leverage_score := JsField.num 0 }).leverage_score
        = 0 ∧
      (computeTonyScore 0 { risk_score := JsField.num 7 }).risk_score = 7 ∧
      (computeTonyScore 0 { friction_score := JsField.num 2 }).friction_score
        = 2) :=
  ⟨⟨rfl, rfl, rfl⟩,
    C2_explicit_passthrough 0 0 7 2
      { leverage_score := JsField.num 0 }
      { risk_score := JsField.num 7 }
      { friction_score := JsField.num 2 } rfl rfl rfl⟩

/-- Claim C3 (counterexample): a task whose `due_date` is present but does
not parse, with bucket "today", is scored with urgency 1, not the claimed
bucket-based urgency 3: the bucket fallback of lines 530-531 is only reached
when `due_date` is falsy, so a truthy unparseable value keeps the initial
urgency 1. -/
theorem C3_counterexample :
    ({ status := "open", bucket := "today",
       due_date := DueVal.invalid } : Task).due_date = DueVal.invalid ∧
    ({ status := "open", bucket := "today",
       due_date := DueVal.invalid } : Task).bucket = "today" ∧
    (computeTonyScore 0
        { status := "open", bucket := "today",
          due_date := DueVal.invalid }).urgency_score = 1 ∧
    (computeTonyScore 0
        { status := "open", bucket := "today",
          due_date := DueVal.invalid }).urgency_score ≠ 3 := by
  decide

/-- Claim C3 (amended): scoring is total — `computeTonyScore` is a total
function and raises no fault — but for every task whose `due_date` is
present and unparseable the urgency is the initial value 1, regardless of
the bucket (the bucket-based fallback applies only to an absent due date). -/
theorem C3_invalid_due_urgency (now : Int) (t : Task)
    (h : t.due_date = DueVal.invalid) :
    (computeTonyScore now t).urgency_score = 1 := by
  simp [computeTonyScore, urgencyOf, h]

/-- Witness for `C3_invalid_due_urgency` at a concrete input. -/
theorem C3_invalid_due_urgency_witness :
    ({ bucket := "today", due_date := DueVal.invalid } : Task).due_date =
        DueVal.invalid ∧
    (computeTonyScore 0
        { bucket := "today", due_date := DueVal.invalid }).urgency_score
      = 1 :=
  ⟨rfl, C3_invalid_due_urgency 0
    { bucket := "today", due_date := DueVal.invalid } rfl⟩

/-- Claim C4 (confirmed): with a valid due date, urgency is binned by the
time to due relative to now — negative → 5, ≤ 24h (86400000 ms) → 4, ≤ 72h
(259200000 ms) → 3, ≤ 7 days (604800000 ms) → 2, beyond → 1 — and is
monotonically non-increasing as the due date moves further into the future
for a fixed now; without a due date, urgency is 3 for bucket "today", 2 for
"this_week" and 1 otherwise. -/
theorem C4_urgency (now d e : Int) (t u v : Task)
    (ht : t.due_date = DueVal.valid d)
    (hu : u.due_date = DueVal.valid e)
    (hv : v.due_date = DueVal.absent)
    (hde : d ≤ e) :
    (computeTonyScore now t).urgency_score =
      (if d - now < 0 then 5
       else if d - now ≤ 86400000 then 4
       else if d - now ≤ 259200000 then 3
       else if d - now ≤ 604800000 then 2
       else 1) ∧
    (computeTonyScore now u).urgency_score ≤
      (computeTonyScore now t).urgency_score ∧
    (computeTonyScore now v).urgency_score =
      (if v.bucket = "today" then 3
       else if v.bucket = "this_week" then 2
       else 1) := by
  refine ⟨?_, ?_, ?_⟩
  · simp [computeTonyScore, urgencyOf, ht]
  · simp only [computeTonyScore, urgencyOf, ht, hu]
    split_ifs <;> omega
  · simp [computeTonyScore, urgencyOf, hv]

/-- Witness for `C4_urgency` at concrete inputs: a due date 1000 ms ahead of
now (urgency 4), one far beyond 7 days (urgency 1), and a task with no due
date in bucket "today" (urgency 3). -/
theorem C4_urgency_witness :
    (({ due_date := DueVal.valid 1000 } : Task).due_date =
        DueVal.valid 1000 ∧
      ({ due_date := DueVal.valid 999999999999 } : Task).due_date =
        DueVal.valid 999999999999 ∧
      ({ bucket := "today" } : Task).due_date = DueVal.absent ∧
      (1000 : Int) ≤ 999999999999) ∧
    ((computeTonyScore 0 { due_date := DueVal.valid 1000 }).urgency_score =
        (if (1000 : Int) - 0 < 0 then 5
         else if (1000 : Int) - 0 ≤ 86400000 then 4
         else if (1000 : Int) - 0 ≤ 259200000 then 3
         else if (1000 : Int) - 0 ≤ 604800000 then 2
         else 1) ∧
      (computeTonyScore 0
          { due_date := DueVal.valid 999999999999 }).urgency_score ≤
        (computeTonyScore 0 { due_date := DueVal.valid 1000 }).urgency_score ∧
      (computeTonyScore 0 ({ bucket := "today" } : Task)).urgency_score =
        (if ({ bucket := "today" } : Task).bucket = "today" then 3
         else if ({ bucket := "today" } : Task).bucket = "this_week" then 2
         else 1)) :=
  ⟨⟨rfl, rfl, rfl, by decide⟩,
    C4_urgency 0 1000 999999999999
      { due_date := DueVal.valid 1000 }
      { due_date := DueVal.valid 999999999999 }
      { bucket := "today" } rfl rfl rfl (by decide)⟩

/-- Claim C5 (confirmed): with no explicit numeric `leverage_score`, the
inferred leverage is `6 - clampPriority (priority ?? 3)`; in particular
priority 1 gives 5, priority 5 gives 1, a missing priority defaults to 3
(leverage 3), and the map is monotonically decreasing in the priority over
the range 1..5. -/
theorem C5_leverage (now p q : Int) (t t1 t5 t0 tp tq : Task)
    (ht : t.leverage_score.isNum = false)
    (h1s : t1.leverage_score.isNum = false) (h1p : t1.priority = some 1)
    (h5s : t5.leverage_score.isNum = false) (h5p : t5.priority = some 5)
    (h0s : t0.leverage_score.isNum = false) (h0p : t0.priority = none)
    (hps : tp.leverage_score.isNum = false) (hpp : tp.priority = some p)
    (hqs : tq.leverage_score.isNum = false) (hqp : tq.priority = some q)
    (hp1 : 1 ≤ p) (hpq : p < q) (hq5 : q ≤ 5) :
    (computeTonyScore now t).leverage_score =
      6 - clampPriority ((t.priority).getD 3) ∧
    (computeTonyScore now t1).leverage_score = 5 ∧
    (computeTonyScore now t5).leverage_score = 1 ∧
    (computeTonyScore now t0).leverage_score = 3 ∧
    (computeTonyScore now tq).leverage_score <
      (computeTonyScore now tp).leverage_score := by
  refine ⟨?_, ?_, ?_, ?_, ?_⟩
  · simpa [computeTonyScore] using leverageOf_of_not_num t ht
  · simp [computeTonyScore, leverageOf_of_not_num t1 h1s, h1p, clampPriority]
  · simp [computeTonyScore, leverageOf_of_not_num t5 h5s, h5p, clampPriority]
  · simp [computeTonyScore, leverageOf_of_not_num t0 h0s, h0p, clampPriority]
  · simp only [computeTonyScore, leverageOf_of_not_num tp hps,
      leverageOf_of_not_num tq hqs, hpp, hqp, Option.getD_some, clampPriority]
    split_ifs <;> omega

/-- Witness for `C5_leverage` at concrete inputs (priorities 1, 5, missing,
2 and 4; leverage fields left undefined). -/
theorem C5_leverage_witness :
    (({ } : Task).leverage_score.isNum = false ∧
      ({ priority := some 1 } : Task).priority = some 1 ∧
      ({ priority := some 5 } : Task).priority = some 5 ∧
      ({ } : Task).priority = none ∧
      ({ priority := some 2 } : Task).priority = some 2 ∧
      ({ priority := some 4 } : Task).priority = some 4 ∧
      (1 : Int) ≤ 2 ∧ (2 : Int) < 4 ∧ (4 : Int) ≤ 5) ∧
    ((computeTonyScore 0 ({ } : Task)).leverage_score =
        6 - clampPriority ((({ } : Task).priority).getD 3) ∧
      (computeTonyScore 0 { priority := some 1 }).leverage_score = 5 ∧
      (computeTonyScore 0 { priority := some 5 }).leverage_score = 1 ∧
      (computeTonyScore 0 ({ } : Task)).leverage_score = 3 ∧
      (computeTonyScore 0 { priority := some 4 }).leverage_score <
        (computeTonyScore 0 { priority := some 2 }).leverage_score) :=
  ⟨⟨rfl, rfl, rfl, rfl, rfl, rfl, by decide, by decide, by decide⟩,
    C5_leverage 0 2 4 { } { priority := some 1 } { priority := some 5 }
      { } { priority := some 2 } { priority := some 4 }
      rfl rfl rfl rfl rfl rfl rfl rfl rfl rfl rfl
      (by decide) (by decide) (by decide)⟩

/-- Claim C7 (confirmed): with no explicit numeric `friction_score`,
friction is inferred from the lower-cased description: a tax/accounting/
legal keyword gives 3, else a call/email keyword gives 1, else 2 (an empty
or missing description included); the tax category is checked first, so a
description containing both ("tax call") gives 3, not 1. -/
theorem C7_friction (now : Int) (t u v : Task)
    (ht : t.friction_score.isNum = false)
    (hu : u.friction_score.isNum = false)
    (hud : u.description = some "Tax call")
    (hv : v.friction_score.isNum = false)
    (hvd : v.description = none) :
    (computeTonyScore now t).friction_score =
      (if strContains (lowerStr ((t.description).getD "")) "tax" ||
          strContains (lowerStr ((t.description).getD "")) "accounting" ||
          strContains (lowerStr ((t.description).getD "")) "legal" then 3
       else if strContains (lowerStr ((t.description).getD "")) "call" ||
          strContains (lowerStr ((t.description).getD "")) "email" then 1
       else 2) ∧
    strContains (lowerStr (("Tax call" : String))) "call" = true ∧
    (computeTonyScore now u).friction_score = 3 ∧
    (computeTonyScore now v).friction_score = 2 := by
  refine ⟨?_, by decide, ?_, ?_⟩
  · show frictionOf t = _
    rw [frictionOf_of_not_num t ht]
    by_cases hd : lowerStr ((t.description).getD "") = ""
    · rw [hd]; decide
    · rw [if_neg hd]
  · show frictionOf u = _
    rw [frictionOf_of_not_num u hu, hud]
    decide
  · show frictionOf v = _
    rw [frictionOf_of_not_num v hv, hvd]
    decide

/-- Witness for `C7_friction` at concrete inputs: a description with no
keyword (friction 2), the description "Tax call" (friction 3 although it
also matches "call"), and a missing description (friction 2). -/
theorem C7_friction_witness :
    (({ description := some "write weekly memo" } : Task).friction_score.isNum
        = false ∧
      ({ description := some "Tax call" } : Task).friction_score.isNum =
        false ∧
      ({ description := some "Tax call" } : Task).description =
        some "Tax call" ∧
      ({ } : Task).friction_score.isNum = false ∧
      ({ } : Task).description = none) ∧
    ((computeTonyScore 0
        ({ description := some "write weekly memo" } : Task)).friction_score =
      (if strContains
            (lowerStr ((({ description := some "write weekly memo" } :
              Task).description).getD "")) "tax" ||
          strContains
            (lowerStr ((({ description := some "write weekly memo" } :
              Task).description).getD "")) "accounting" ||
          strContains
            (lowerStr ((({ description := some "write weekly memo" } :
              Task).description).getD "")) "legal" then 3
       else if strContains
            (lowerStr ((({ description := some "write weekly memo" } :
              Task).description).getD "")) "call" ||
          strContains
            (lowerStr ((({ description := some "write weekly memo" } :
              Task).description).getD "")) "email" then 1
       else 2) ∧
      strContains (lowerStr (("Tax call" : String))) "call" = true ∧
      (computeTonyScore 0
        ({ description := some "Tax call" } : Task)).friction_score = 3 ∧
      (computeTonyScore 0 ({ } : Task)).friction_score = 2) :=
  ⟨⟨rfl, rfl, rfl, rfl, rfl⟩,
    C7_friction 0 { description := some "write weekly memo" }
      { description := some "Tax call" } { }
      rfl rfl rfl rfl rfl⟩

/-- Claim C8 (confirmed): with no explicit numeric `risk_score`, risk is
derived from the urgency computed for the task — urgency ≥ 4 → 4,
urgency = 3 → 3, otherwise 2 — and inferred risk is a function of that
urgency only: two tasks with equal computed urgency and no explicit risk
get equal risk, whatever their other fields. -/
theorem C8_risk (now m : Int) (t u : Task)
    (ht : t.risk_score.isNum = false)
    (hu : u.risk_score.isNum = false)
    (hsame : (computeTonyScore now t).urgency_score =
      (computeTonyScore m u).urgency_score) :
    (computeTonyScore now t).risk_score =
      (if (computeTonyScore now t).urgency_score ≥ 4 then 4
       else if (computeTonyScore now t).urgency_score = 3 then 3
       else 2) ∧
    (computeTonyScore now t).risk_score = (computeTonyScore m u).risk_score := by
  simp only [computeTonyScore] at hsame ⊢
  refine ⟨riskOf_of_not_num now t ht, ?_⟩
  rw [riskOf_of_not_num now t ht, riskOf_of_not_num m u hu, hsame]

/-- Witness for `C8_risk` at concrete inputs: a task in bucket "today" with
no due date (urgency 3) and a task due 100000000 ms after its clock reading
(also urgency 3); both get risk 3. -/
theorem C8_risk_witness :
    (({ bucket := "today" } : Task).risk_score.isNum = false ∧
      ({ due_date := DueVal.valid 100000000 } : Task).risk_score.isNum =
        false ∧
      (computeTonyScore 0 ({ bucket := "today" } : Task)).urgency_score =
        (computeTonyScore 0
          ({ due_date := DueVal.valid 100000000 } : Task)).urgency_score) ∧
    ((computeTonyScore 0 ({ bucket := "today" } : Task)).risk_score =
      (if (computeTonyScore 0 ({ bucket := "today" } : Task)).urgency_score
            ≥ 4 then 4
       else if (computeTonyScore 0
            ({ bucket := "today" } : Task)).urgency_score = 3 then 3
       else 2) ∧
      (computeTonyScore 0 ({ bucket := "today" } : Task)).risk_score =
        (computeTonyScore 0
          ({ due_date := DueVal.valid 100000000 } : Task)).risk_score) :=
  ⟨⟨rfl, rfl, by decide⟩,
    C8_risk 0 0 { bucket := "today" } { due_date := DueVal.valid 100000000 }
      rfl rfl (by decide)⟩

/-- Claim C1 (counterexample): the listing is not sorted by the claimed
comparator. Two open tasks identical in every ranking key except bucket —
one in "today" (inserted first), one in "later" — come back with the
"later" task first, because `ORDER BY bucket` compares the text values and
"later" < "this_week" < "today" in character order; the claimed bucket rank
today < this_week < later would put the "today" task first. -/
theorem C1_counterexample :
    listTasks
        [{ status := "open", bucket := "today", priority := some 3,
           created_at := 0 },
         { status := "open", bucket := "later", priority := some 3,
           created_at := 1 }] =
      [{ status := "open", bucket := "later", priority := some 3,
         created_at := 1 },
       { status := "open", bucket := "today", priority := some 3,
         created_at := 0 }] ∧
    ¬ List.Pairwise specLe
        (listTasks
          [{ status := "open", bucket := "today", priority := some 3,
             created_at := 0 },
           { status := "open", bucket := "later", priority := some 3,
             created_at := 1 }]) := by
  constructor
  · decide
  · decide

/-- Claim C1 (amended): the listing returned by `GET /tasks` is a
permutation of the stored rows, sorted by the lexicographic comparator
`taskLe` — (1) completion state with incomplete before done, (2) bucket
compared as text ascending, which orders later before this_week before
today, (3) priority ascending, (4) the due-date key
`COALESCE(due_date, '9999-12-31')` ascending, (5) `created_at` ascending.
The relative order of tasks equal on all five keys is unspecified (the
query guarantees nothing beyond the `ORDER BY`), so no stability is
asserted; both conjuncts hold of every `ORDER BY`-compliant output. -/
theorem C1_default_order (l : List Task) :
    (listTasks l).Perm l ∧ List.Sorted taskLe (listTasks l) :=
  ⟨List.perm_insertionSort taskLe l, List.sorted_insertionSort taskLe l⟩

/-- Claim C9 (confirmed): in the listing output, every pair with a done task
before another task forces the later one to be done as well — equivalently,
a non-done task never follows a done task, regardless of priority, bucket,
due date or score values, because `status = 'done'` is the first sort key. -/
theorem C9_done_sorts_last (l : List Task) :
    (listTasks l).Pairwise
      (fun a b => a.status = "done" → b.status = "done") := by
  have hs : List.Sorted taskLe (List.insertionSort taskLe l) :=
    List.sorted_insertionSort taskLe l
  refine List.Pairwise.imp ?_ hs
  intro a b hab had
  have hab2 : toLex (doneKey a,
      toLex (a.bucket.data,
        toLex ((a.priority).getD 3, toLex (dueKey a, a.created_at)))) ≤
    toLex (doneKey b,
      toLex (b.bucket.data,
        toLex ((b.priority).getD 3, toLex (dueKey b, b.created_at)))) := hab
  have hd : doneKey a ≤ doneKey b := by
    rcases (Prod.Lex.le_iff _ _).mp hab2 with h | h
    · exact Nat.le_of_lt h
    · exact le_of_eq h.1
  have ha1 : doneKey a = 1 := by simp [doneKey, had]
  by_contra hbd
  have hb0 : doneKey b = 0 := by simp [doneKey, hbd]
  omega

/-- Claim C10 (confirmed): a score-input field counts as explicitly set in
`computeTonyScore` exactly when it holds a JS number: an explicit 0 passes
through unchanged for `leverage_score`, `risk_score` and `friction_score`
(zero is not an absent sentinel), while any non-number value — the numeric
string "3", `null`, `undefined` — is treated as absent and triggers that
field's inference rule. -/
theorem C10_number_presence_check (now : Int) (t0 r0 f0 ts tn tu : Task)
    (h0 : t0.leverage_score = JsField.num 0)
    (hr : r0.risk_score = JsField.num 0)
    (hf : f0.friction_score = JsField.num 0)
    (hs : ts.leverage_score.isNum = false)
    (hn : tn.risk_score.isNum = false)
    (hu : tu.friction_score.isNum = false) :
    (computeTonyScore now t0).leverage_score = 0 ∧
    (computeTonyScore now r0).risk_score = 0 ∧
    (computeTonyScore now f0).friction_score = 0 ∧
    (computeTonyScore now ts).leverage_score =
      6 - clampPriority ((ts.priority).getD 3) ∧
    (computeTonyScore now tn).risk_score =
      (if urgencyOf now tn ≥ 4 then 4
       else if urgencyOf now tn = 3 then 3
       else 2) ∧
    (computeTonyScore now tu).friction_score =
      (if lowerStr ((tu.description).getD "") = "" then 2
       else if strContains (lowerStr ((tu.description).getD "")) "tax" ||
           strContains (lowerStr ((tu.description).getD "")) "accounting" ||
           strContains (lowerStr ((tu.description).getD "")) "legal" then 3
       else if strContains (lowerStr ((tu.description).getD "")) "call" ||
           strContains (lowerStr ((tu.description).getD "")) "email" then 1
       else 2) := by
  refine ⟨?_, ?_, ?_, ?_, ?_, ?_⟩
  · simp [computeTonyScore, leverageOf, h0]
  · simp [computeTonyScore, riskOf, hr]
  · simp [computeTonyScore, frictionOf, hf]
  · simpa [computeTonyScore] using leverageOf_of_not_num ts hs
  · simpa [computeTonyScore] using riskOf_of_not_num now tn hn
  · simpa [computeTonyScore] using frictionOf_of_not_num tu hu

/-- Witness for `C10_number_presence_check` at concrete inputs: zero
overrides for the three pass-through fields, and the string "3", `null` and
`undefined` as non-number values triggering inference. -/
theorem C10_number_presence_check_witness :
    (({ leverage_score := JsField.num 0 } : Task).leverage_score =
        JsField.num 0 ∧
      ({ risk_score := JsField.num 0 } : Task).risk_score = JsField.num 0 ∧
      ({ friction_score := JsField.num 0 } : Task).friction_score =
        JsField.num 0 ∧
      ({ leverage_score := JsField.str "3" } : Task).leverage_score.isNum =
        false ∧
      ({ risk_score := JsField.nullv } : Task).risk_score.isNum = false ∧
      ({ friction_score := JsField.undef } : Task).friction_score.isNum =
        false) ∧
    ((computeTonyScore 0
        ({ leverage_score := JsField.num 0 } : Task)).leverage_score = 0 ∧
      (computeTonyScore 0
        ({ risk_score := JsField.num 0 } : Task)).risk_score = 0 ∧
      (computeTonyScore 0
        ({ friction_score := JsField.num 0 } : Task)).friction_score = 0 ∧
      (computeTonyScore 0
          ({ leverage_score := JsField.str "3" } : Task)).leverage_score =
        6 - clampPriority
          ((({ leverage_score := JsField.str "3" } : Task).priority).getD 3) ∧
      (computeTonyScore 0
          ({ risk_score := JsField.nullv } : Task)).risk_score =
        (if urgencyOf 0 ({ risk_score := JsField.nullv } : Task) ≥ 4 then 4
         else if urgencyOf 0 ({ risk_score := JsField.nullv } : Task) = 3
           then 3
         else 2) ∧
      (computeTonyScore 0
          ({ friction_score := JsField.undef } : Task)).friction_score =
        (if lowerStr ((({ friction_score := JsField.undef } :
              Task).description).getD "") = "" then 2
         else if strContains
              (lowerStr ((({ friction_score := JsField.undef } :
                Task).description).getD "")) "tax" ||
            strContains
              (lowerStr ((({ friction_score := JsField.undef } :
                Task).description).getD "")) "accounting" ||
            strContains
              (lowerStr ((({ friction_score := JsField.undef } :
                Task).description).getD "")) "legal" then 3
         else if strContains
              (lowerStr ((({ friction_score := JsField.undef } :
                Task).description).getD "")) "call" ||
            strContains
              (lowerStr ((({ friction_score := JsField.undef } :
                Task).description).getD "")) "email" then 1
         else 2)) :=
  ⟨⟨rfl, rfl, rfl, rfl, rfl, rfl⟩,
    C10_number_presence_check 0
      { leverage_score := JsField.num 0 }
      { risk_score := JsField.num 0 }
      { friction_score := JsField.num 0 }
      { leverage_score := JsField.str "3" }
      { risk_score := JsField.nullv }
      { friction_score := JsField.undef }
      rfl rfl rfl rfl rfl rfl⟩

end TonyOS
